import Mathlib

/-!
Verification of the `create_product` request handler
(`Part1_Correct_Implementation.py`): a Flask endpoint that validates a JSON
payload and atomically inserts a `Product` row together with its initial
`Inventory` row, translating database integrity violations into HTTP
responses.

The embedding is shallow: JSON payloads are an inductive type, the database
and ORM session are explicit state threaded through the handler, and Python
exceptions are an `Except` layer.  Python's `Decimal(str(x))` is modelled by
an executable decimal-literal parser producing exact rationals (plus the
special values Infinity and NaN that `Decimal` also accepts); `str.strip` /
`str.upper` are modelled over ASCII.  JSON numbers written with a fraction or
exponent are carried as the exact rational value of their literal (Python's
`str(float)` round-trips the shortest decimal representation).  Non-integer
warehouse keys are modelled as failed lookups.
-/

set_option maxHeartbeats 1000000

namespace ProductAPI

/-- JSON values as delivered by `request.get_json()`.  `int` is a Python
`int`, `num` a Python `float` carried as the exact rational value of its
decimal literal, `bool` a Python `bool`. -/
inductive JSON where
  | null
  | bool (b : Bool)
  | int (n : Int)
  | num (q : ℚ)
  | str (s : String)
  | arr (xs : List JSON)
  | obj (kvs : List (String × JSON))

/-- Python exceptions that the handler's code can raise. -/
inductive PyExc where
  | integrityError (msg : String)
  | attributeError (msg : String)
  | typeError (msg : String)
  | keyError (msg : String)
  deriving DecidableEq

/-- Python truthiness: `None`, `False`, `0`, `0.0`, `""`, `[]`, `{}` are
falsy; `if not data` takes the falsy branch exactly on these. -/
def pyFalsy : JSON → Bool
  | .null => true
  | .bool b => !b
  | .int n => n == 0
  | .num q => decide (q = 0)
  | .str s => s == ""
  | .arr xs => xs.isEmpty
  | .obj kvs => kvs.isEmpty

/-- Elementwise equality with a string, used for Python's `in` on lists. -/
def isStrVal : JSON → String → Bool
  | .str s, k => s == k
  | _, _ => false

/-- Whether `needle` is an initial segment of the second list. -/
def isPrefixList : List Char → List Char → Bool
  | [], _ => true
  | _ :: _, [] => false
  | a :: as, b :: bs => a == b && isPrefixList as bs

/-- Whether `needle` occurs as a contiguous sublist. -/
def containsSub (needle : List Char) : List Char → Bool
  | [] => needle.isEmpty
  | c :: cs => isPrefixList needle (c :: cs) || containsSub needle cs

/-- Python's `key in data`: dict key membership, list element membership,
substring test on strings; `TypeError` on non-container values. -/
def pyContains (key : String) : JSON → Except PyExc Bool
  | .obj kvs => .ok (kvs.lookup key).isSome
  | .arr xs => .ok (xs.any (fun v => isStrVal v key))
  | .str s => .ok (containsSub key.toList s.toList)
  | _ => .error (.typeError "argument is not iterable")

/-- Python's `data[key]` with a string key: dict lookup; `TypeError` when
indexing a list or string with a string; `TypeError` on scalars. -/
def pyIndex (key : String) : JSON → Except PyExc JSON
  | .obj kvs =>
    match kvs.lookup key with
    | some v => .ok v
    | none => .error (.keyError key)
  | _ => .error (.typeError "indices must be integers")

/-- ASCII whitespace stripped by Python's `str.strip` and accepted around a
`Decimal` literal. -/
def isPyWS (c : Char) : Bool :=
  c == ' ' || c == '\t' || c == '\n' || c == '\r' || c == '\x0b' || c == '\x0c'

/-- Strip leading and trailing whitespace from a character list. -/
def stripChars (cs : List Char) : List Char :=
  ((cs.dropWhile isPyWS).reverse.dropWhile isPyWS).reverse

/-- Python's `str.strip()`. -/
def stripStr (s : String) : String :=
  String.mk (stripChars s.toList)

/-- Python's `str.upper()` (ASCII). -/
def pyUpper (s : String) : String :=
  String.mk (s.toList.map Char.toUpper)

/-- Python's `x.strip()`: only `str` has the attribute; anything else raises
`AttributeError`, which the handler's generic `except` turns into a 500. -/
def pyStripStr : JSON → Except PyExc String
  | .str s => .ok (stripStr s)
  | _ => .error (.attributeError "object has no attribute strip")

/-- The value of Python's `Decimal`: an exact rational, a signed infinity, or
NaN (`Decimal` accepts `Infinity`/`NaN` literals). -/
inductive Dec where
  | fin (q : ℚ)
  | inf (neg : Bool)
  | nan
  deriving DecidableEq

deriving instance DecidableEq for Except

/-- `price < 0` on a `Decimal`: comparing a NaN raises `InvalidOperation`,
which the surrounding `except (InvalidOperation, ValueError)` catches.  A
rational is negative exactly when its numerator is (`decLtZero_fin` below);
the numerator test is used because it evaluates inside the kernel. -/
def decLtZero : Dec → Except Unit Bool
  | .fin q => .ok (decide (q.num < 0))
  | .inf neg => .ok neg
  | .nan => .error ()

lemma decLtZero_fin (q : ℚ) : decLtZero (Dec.fin q) = .ok (decide (q < 0)) := by
  have h : q.num < 0 ↔ q < 0 := by
    rw [← not_le, ← not_le]
    exact not_congr Rat.num_nonneg
  simp [decLtZero, h]

def isDigitChar (c : Char) : Bool := c.isDigit

def digitsToNat (cs : List Char) : Nat :=
  cs.foldl (fun a c => a * 10 + (c.toNat - 48)) 0

/-- The exact rational value `± m · 10^e / 10^fl` of a parsed decimal
literal with digit value `m`, `fl` fractional digits and exponent `e`,
built with `mkRat` so that it evaluates inside the kernel. -/
def decValue (neg : Bool) (m fl : Nat) (e : Int) : ℚ :=
  let mag : Nat := if 0 ≤ e then m * 10 ^ e.toNat else m
  let den : Nat := if 0 ≤ e then 10 ^ fl else 10 ^ fl * 10 ^ (-e).toNat
  mkRat (if neg then -(mag : Int) else (mag : Int)) den

/-- Parse the digit part of a decimal literal: `digits`, `digits.digits`,
`.digits` or `digits.`, requiring at least one digit.  Returns the digits'
value and the number of fractional digits. -/
def parseMantissa (cs : List Char) : Option (Nat × Nat) :=
  let p := cs.span isDigitChar
  match p.2 with
  | [] => if p.1.isEmpty then none else some (digitsToNat p.1, 0)
  | '.' :: fp =>
    if fp.all isDigitChar && (!p.1.isEmpty || !fp.isEmpty) then
      some (digitsToNat (p.1 ++ fp), fp.length)
    else none
  | _ => none

/-- Parse the exponent that follows `e`/`E`: optional sign then digits. -/
def parseExp : List Char → Option Int
  | [] => none
  | '+' :: ds => if !ds.isEmpty && ds.all isDigitChar then some (digitsToNat ds) else none
  | '-' :: ds => if !ds.isEmpty && ds.all isDigitChar then some (-(digitsToNat ds : Int)) else none
  | ds => if ds.all isDigitChar then some (digitsToNat ds) else none

/-- Parse an unsigned decimal literal (after the optional sign): numeric
form with optional exponent, or the keywords `Infinity`/`Inf`/`NaN`/`sNaN`
(case-insensitive, NaN may carry a digit payload). -/
def parseNumericCore (cs : List Char) (neg : Bool) : Except Unit Dec :=
  let low := cs.map Char.toLower
  if low == "infinity".toList || low == "inf".toList then .ok (.inf neg)
  else if (match low with
           | 'n' :: 'a' :: 'n' :: rest => rest.all isDigitChar
           | 's' :: 'n' :: 'a' :: 'n' :: rest => rest.all isDigitChar
           | _ => false) then .ok .nan
  else
    let p := cs.span (fun c => c != 'e' && c != 'E')
    match p.2 with
    | [] =>
      match parseMantissa p.1 with
      | some mf => .ok (.fin (decValue neg mf.1 mf.2 0))
      | none => .error ()
    | _ :: ecs =>
      match parseMantissa p.1, parseExp ecs with
      | some mf, some e => .ok (.fin (decValue neg mf.1 mf.2 e))
      | _, _ => .error ()

/-- Python's `Decimal(s)` on a string: surrounding whitespace is allowed,
then an optional sign and a decimal literal; anything else raises
`InvalidOperation`. -/
def decimalOfString (s : String) : Except Unit Dec :=
  match stripChars s.toList with
  | '+' :: rest => parseNumericCore rest false
  | '-' :: rest => parseNumericCore rest true
  | cs => parseNumericCore cs false

/-- `Decimal(str(v))` for a JSON value: ints and floats go through their
decimal representation exactly; strings are parsed; `str()` of `None`,
booleans, lists and dicts never parses as a decimal. -/
def decimalOfJSON : JSON → Except Unit Dec
  | .int n => .ok (.fin (mkRat n 1))
  | .num q => .ok (.fin q)
  | .str s => decimalOfString s
  | _ => .error ()

/-- Lines 21–26: parse the price and test negativity inside
`try … except (InvalidOperation, ValueError)`; an unparseable value or a NaN
comparison yields the `Invalid price format` message, a negative value the
`Price cannot be negative` message. -/
def priceCheck (pv : JSON) : Except String Dec :=
  match decimalOfJSON pv with
  | .error _ => .error "Invalid price format"
  | .ok d =>
    match decLtZero d with
    | .error _ => .error "Invalid price format"
    | .ok true => .error "Price cannot be negative"
    | .ok false => .ok d

/-- `isinstance(x, int)` — in Python a `bool` is an `int`. -/
def isPyInt : JSON → Bool
  | .int _ => true
  | .bool _ => true
  | _ => false

/-- The integer value of a Python int (`True` is 1, `False` is 0). -/
def pyIntVal : JSON → Int
  | .int n => n
  | .bool b => if b then 1 else 0
  | _ => 0

/-- A persisted Product row. -/
structure Product where
  id : Nat
  name : String
  sku : String
  price : Dec
  warehouse_id : Int
  deriving DecidableEq

/-- A persisted Inventory row. -/
structure Inventory where
  product_id : Nat
  warehouse_id : Int
  quantity : Int
  deriving DecidableEq

/-- The persistent database: warehouse ids, product and inventory rows, and
the next autoincrement product id. -/
structure DB where
  warehouses : List Int
  products : List Product
  inventories : List Inventory
  nextId : Nat
  deriving DecidableEq

/-- The per-request session: the database, whether an explicit transaction
is open, and the server-side error log. -/
structure Session where
  db : DB
  inTxn : Bool
  log : List String
  deriving DecidableEq

/-- `Warehouse.query.get(v)`: an integer key that is present resolves;
non-integer keys are modelled as failed lookups. -/
def warehouseGet (v : JSON) (ws : List Int) : Option Int :=
  match v with
  | .int i => if ws.contains i then some i else none
  | _ => none

/-- Response bodies the handler produces: an error object, or the success
object `{message, product_id, sku}`. -/
inductive Body where
  | err (msg : String)
  | created (product_id : Nat) (sku : String)
  deriving DecidableEq

/-- An HTTP response: status code and JSON body. -/
structure Response where
  status : Nat
  body : Body
  deriving DecidableEq

/-- The fields required by lines 15–18, in source order. -/
def requiredFields : List String := ["name", "sku", "price", "warehouse_id", "initial_quantity"]

/-- Lines 16–18: the loop `if field not in data or data[field] is None`,
returning the first missing-or-null field; `in` or indexing may raise on
non-dict payloads. -/
def checkRequired : List String → JSON → Except PyExc (Option String)
  | [], _ => .ok none
  | f :: rest, data =>
    match pyContains f data with
    | .error e => .error e
    | .ok false => .ok (some f)
    | .ok true =>
      match pyIndex f data with
      | .error e => .error e
      | .ok .null => .ok (some f)
      | .ok _ => checkRequired rest data

/-- `db.session.rollback()`: closes the transaction, leaves rows intact. -/
def rollback (s : Session) : Session := { s with inTxn := false }

/-- The message of the `IntegrityError` the database raises when the sku
unique constraint is violated. -/
def skuConstraintMsg : String := "UNIQUE constraint failed: product.sku"

/-- Line 69's test `"sku" in str(e).lower()`. -/
def containsSku (msg : String) : Bool :=
  containsSub "sku".toList (msg.toList.map Char.toLower)

def excMsg : PyExc → String
  | .integrityError m => m
  | .attributeError m => m
  | .typeError m => m
  | .keyError m => m

def isIntegrity : PyExc → Bool
  | .integrityError _ => true
  | _ => false

/-- Lines 67–76: the two `except` clauses.  An `IntegrityError` is rolled
back and mapped to 409 when its message mentions `sku`, otherwise to 400;
every other exception is rolled back, logged, and answered with an opaque
500. -/
def handleExc (e : PyExc) (s : Session) : Response × Session :=
  match e with
  | .integrityError msg =>
    if containsSku msg then (⟨409, .err "SKU already exists"⟩, rollback s)
    else (⟨400, .err "Database constraint violation"⟩, rollback s)
  | e =>
    (⟨500, .err "Internal server error"⟩,
      { rollback s with log := s.log ++ ["Error creating product: " ++ excMsg e] })

/-- The state after a successful commit (lines 47–59): the Product row gets
id `nextId`, the Inventory row references it, both are appended together,
and the transaction is closed. -/
def commitState (s : Session) (nm sku : String) (d : Dec) (wid : Int) (q : Int) : Session :=
  { s with
    db := { s.db with
      products := s.db.products ++ [⟨s.db.nextId, nm, sku, d, wid⟩],
      inventories := s.db.inventories ++ [⟨s.db.nextId, wid, q⟩],
      nextId := s.db.nextId + 1 },
    inTxn := false }

/-- Lines 10–65: the body of the outer `try`.  Returns either a response or
the Python exception that escapes to the `except` clauses, together with the
session state at that point. -/
def body (data : JSON) (s : Session) : Except PyExc Response × Session :=
  if pyFalsy data then (.ok ⟨400, .err "No JSON data provided"⟩, s)
  else
    match checkRequired requiredFields data with
    | .error e => (.error e, s)
    | .ok (some f) => (.ok ⟨400, .err ("Missing required field: " ++ f)⟩, s)
    | .ok none =>
      match pyIndex "price" data with
      | .error e => (.error e, s)
      | .ok pv =>
        match priceCheck pv with
        | .error msg => (.ok ⟨400, .err msg⟩, s)
        | .ok price =>
          match pyIndex "initial_quantity" data with
          | .error e => (.error e, s)
          | .ok iqv =>
            if !isPyInt iqv || pyIntVal iqv < 0 then
              (.ok ⟨400, .err "Initial quantity must be non-negative integer"⟩, s)
            else
              match pyIndex "warehouse_id" data with
              | .error e => (.error e, s)
              | .ok wv =>
                match warehouseGet wv s.db.warehouses with
                | none => (.ok ⟨404, .err "Warehouse not found"⟩, s)
                | some wid =>
                  -- from here on `db.session.begin()` has run: the session
                  -- carries an open transaction until commit or rollback
                  match pyIndex "name" data with
                  | .error e => (.error e, { s with inTxn := true })
                  | .ok nv =>
                    match pyStripStr nv with
                    | .error e => (.error e, { s with inTxn := true })
                    | .ok nm =>
                      match pyIndex "sku" data with
                      | .error e => (.error e, { s with inTxn := true })
                      | .ok sv =>
                        match pyStripStr sv with
                        | .error e => (.error e, { s with inTxn := true })
                        | .ok sk =>
                          -- flush: the INSERT hits the unique constraint here
                          if s.db.products.any (fun p => p.sku = pyUpper sk) then
                            (.error (.integrityError skuConstraintMsg), { s with inTxn := true })
                          else
                            (.ok ⟨201, .created s.db.nextId (pyUpper sk)⟩,
                              commitState s nm (pyUpper sk) price wid (pyIntVal iqv))

/-- The whole handler `create_product`: the `try` body with its `except`
clauses. -/
def create_product (data : JSON) (s : Session) : Response × Session :=
  match body data s with
  | (.ok r, s1) => (r, s1)
  | (.error e, s1) => handleExc e s1

/-! ### Concrete states and payloads used in witnesses and scenarios -/

/-- A fresh database holding only warehouse 1. -/
def sInit : Session := ⟨⟨[1], [], [], 1⟩, false, []⟩

/-- The spec's example payload. -/
def widgetPayload : JSON :=
  .obj [("name", .str "Widget"), ("sku", .str " abc-1 "), ("price", .str "9.99"),
        ("warehouse_id", .int 1), ("initial_quantity", .int 10)]

/-- A second payload whose sku differs from the example's only in case and
whitespace. -/
def widgetPayload2 : JSON :=
  .obj [("name", .str "Widget two"), ("sku", .str "Abc-1"), ("price", .int 2),
        ("warehouse_id", .int 1), ("initial_quantity", .int 3)]

/-! ### The pairing invariant and structural lemmas -/

/-- Every Product row has an Inventory row referencing it and conversely. -/
def paired (db : DB) : Prop :=
  (∀ p ∈ db.products, ∃ i ∈ db.inventories, i.product_id = p.id) ∧
  (∀ i ∈ db.inventories, ∃ p ∈ db.products, p.id = i.product_id)

instance (db : DB) : Decidable (paired db) := by
  unfold paired; infer_instance

lemma paired_commitState (s : Session) (nm sku : String) (d : Dec) (wid : Int) (q : Int)
    (h : paired s.db) : paired (commitState s nm sku d wid q).db := by
  obtain ⟨h1, h2⟩ := h
  constructor
  · intro p hp
    rcases List.mem_append.1 hp with hp | hp
    · obtain ⟨i, hi, hip⟩ := h1 p hp
      exact ⟨i, List.mem_append_left _ hi, hip⟩
    · refine ⟨⟨s.db.nextId, wid, q⟩, List.mem_append_right _ (by simp), ?_⟩
      simp only [List.mem_singleton] at hp
      subst hp; rfl
  · intro i hi
    rcases List.mem_append.1 hi with hi | hi
    · obtain ⟨p, hp, hpi⟩ := h2 i hi
      exact ⟨p, List.mem_append_left _ hp, hpi⟩
    · refine ⟨⟨s.db.nextId, nm, sku, d, wid⟩, List.mem_append_right _ (by simp), ?_⟩
      simp only [List.mem_singleton] at hi
      subst hi; rfl

/-- What the two `except` clauses can do to the state and the response:
the database rows are untouched, the transaction is closed, the status is
never 201, and a 500 comes with the opaque body and one new log line. -/
lemma handleExc_spec (e : PyExc) (s : Session) :
    (handleExc e s).2.db = s.db ∧ (handleExc e s).2.inTxn = false ∧
    (handleExc e s).1.status ≠ 201 ∧
    ((handleExc e s).1.status = 500 →
      (handleExc e s).1 = ⟨500, .err "Internal server error"⟩ ∧
      ∃ line, (handleExc e s).2.log = s.log ++ [line]) := by
  cases e with
  | integrityError msg =>
    by_cases h : containsSku msg = true <;>
      simp [handleExc, h, rollback]
  | attributeError msg => exact ⟨rfl, rfl, by simp [handleExc], by simp [handleExc, rollback]⟩
  | typeError msg => exact ⟨rfl, rfl, by simp [handleExc], by simp [handleExc, rollback]⟩
  | keyError msg => exact ⟨rfl, rfl, by simp [handleExc], by simp [handleExc, rollback]⟩

/-- Every run of the `try` body falls in one of four shapes: an early
response with the session untouched, an exception before the transaction
begins, an exception inside the open transaction, or a committed success. -/
lemma body_characterize (data : JSON) (s : Session) :
    (∃ r, body data s = (.ok r, s) ∧ r.status ≠ 201 ∧ r.status ≠ 500) ∨
    (∃ e, body data s = (.error e, s)) ∨
    (∃ e, body data s = (.error e, { s with inTxn := true })) ∨
    (∃ nm sku d wid q, body data s =
        (.ok ⟨201, .created s.db.nextId sku⟩, commitState s nm sku d wid q)) := by
  unfold body
  repeat' split
  all_goals
    first
    | exact Or.inl ⟨_, rfl, by simp, by simp⟩
    | exact Or.inr (Or.inl ⟨_, rfl⟩)
    | exact Or.inr (Or.inr (Or.inl ⟨_, rfl⟩))
    | exact Or.inr (Or.inr (Or.inr ⟨_, _, _, _, _, rfl⟩))

/-- Whether the required-field loop treats `f` as missing in a mapping
payload: the key is absent or its value is null. -/
def absentOrNull (f : String) (kvs : List (String × JSON)) : Bool :=
  match kvs.lookup f with
  | none => true
  | some .null => true
  | some _ => false

/-- On a mapping payload the loop of lines 16–18 never raises and reports
exactly the first required field, in listed order, that is absent or null. -/
lemma checkRequired_obj (fs : List String) (kvs : List (String × JSON)) :
    checkRequired fs (.obj kvs) = .ok (fs.find? (fun f => absentOrNull f kvs)) := by
  induction fs with
  | nil => rfl
  | cons f rest ih =>
    unfold checkRequired
    simp only [pyContains]
    cases hl : kvs.lookup f with
    | none => simp [List.find?, absentOrNull, hl]
    | some v => cases v <;> simp [List.find?, absentOrNull, hl, pyIndex, ih]

lemma create_product_ok (data : JSON) (s s1 : Session) (r : Response)
    (hb : body data s = (.ok r, s1)) : create_product data s = (r, s1) := by
  unfold create_product; rw [hb]

lemma create_product_err (data : JSON) (s s1 : Session) (e : PyExc)
    (hb : body data s = (.error e, s1)) : create_product data s = handleExc e s1 := by
  unfold create_product; rw [hb]

/-! ### Claim theorems -/

/-- C1: atomicity of the two-row write.  For every request and every
starting state satisfying the Product/Inventory pairing invariant, the state
after `create_product` still satisfies it, and on every non-201 outcome
(validation failure, warehouse miss, integrity violation, or any other
exception) the persistent database is exactly the one from before the
request: no Product row ever exists without its Inventory row or
conversely. -/
theorem create_product_atomic (data : JSON) (s : Session) (h : paired s.db) :
    paired (create_product data s).2.db ∧
    ((create_product data s).1.status ≠ 201 → (create_product data s).2.db = s.db) := by
  rcases body_characterize data s with ⟨r, hb, _, _⟩ | ⟨e, hb⟩ | ⟨e, hb⟩ |
    ⟨nm, sku, d, wid, q, hb⟩
  · rw [create_product_ok data s s r hb]
    exact ⟨h, fun _ => rfl⟩
  · rw [create_product_err data s s e hb]
    obtain ⟨hdb, -, -, -⟩ := handleExc_spec e s
    exact ⟨by rw [hdb]; exact h, fun _ => hdb⟩
  · rw [create_product_err data s { s with inTxn := true } e hb]
    obtain ⟨hdb, -, -, -⟩ := handleExc_spec e { s with inTxn := true }
    exact ⟨by rw [hdb]; exact h, fun _ => hdb⟩
  · rw [create_product_ok data s (commitState s nm sku d wid q) _ hb]
    exact ⟨paired_commitState s nm sku d wid q h, fun hne => absurd rfl hne⟩

/-- C1 witness: the invariant holds in the initial state and is preserved on
the spec's example request. -/
theorem create_product_atomic_witness :
    paired sInit.db ∧
    (paired (create_product widgetPayload sInit).2.db ∧
      ((create_product widgetPayload sInit).1.status ≠ 201 →
        (create_product widgetPayload sInit).2.db = sInit.db)) :=
  ⟨by decide, create_product_atomic widgetPayload sInit (by decide)⟩

/-- C3: uniqueness-violation mapping.  An `IntegrityError` raised during the
transaction is rolled back and answered 409 `SKU already exists` when its
message mentions the sku constraint and 400 `Database constraint violation`
otherwise; and submitting the example sku twice — the second time differing
only in case and whitespace — yields 201 then 409, leaving the database as
it was after the first request. -/
theorem integrity_mapping_and_duplicate_sku :
    (∀ msg s, handleExc (.integrityError msg) s =
      if containsSku msg then (⟨409, .err "SKU already exists"⟩, rollback s)
      else (⟨400, .err "Database constraint violation"⟩, rollback s)) ∧
    (create_product widgetPayload sInit).1 = ⟨201, .created 1 "ABC-1"⟩ ∧
    (create_product widgetPayload2 (create_product widgetPayload sInit).2).1 =
      ⟨409, .err "SKU already exists"⟩ ∧
    (create_product widgetPayload2 (create_product widgetPayload sInit).2).2.db =
      (create_product widgetPayload sInit).2.db := by
  refine ⟨fun msg s => rfl, by decide, by decide, by decide⟩

/-- C8 counterexample: the truthy non-mapping payload `[1]` is not rejected
with `No JSON data provided`; it reaches the required-field loop and is
answered `Missing required field: name`. -/
theorem payload_shape_counterexample :
    (create_product (.arr [.int 1]) sInit).1 =
      ⟨400, .err "Missing required field: name"⟩ ∧
    (create_product (.arr [.int 1]) sInit).1 ≠ ⟨400, .err "No JSON data provided"⟩ := by
  exact ⟨rfl, by decide⟩

/-- C8 amended: a payload that is absent or falsy (null, false, zero, empty
string, empty array, or empty mapping — the Python `if not data` test) is
answered 400 `No JSON data provided` with the state untouched, before any
other validation or database access; truthy non-mapping payloads instead
fall through to the required-field loop. -/
theorem payload_falsy_rejected (data : JSON) (s : Session)
    (h : pyFalsy data = true) :
    create_product data s = (⟨400, .err "No JSON data provided"⟩, s) := by
  have hb : body data s = (.ok ⟨400, .err "No JSON data provided"⟩, s) := by
    unfold body
    simp [h]
  exact create_product_ok data s s _ hb

/-- C8 amended witness: the empty mapping is falsy and rejected. -/
theorem payload_falsy_rejected_witness :
    create_product (.obj []) sInit = (⟨400, .err "No JSON data provided"⟩, sInit) :=
  payload_falsy_rejected (.obj []) sInit rfl

/-- C9: generic failure path.  Starting outside a transaction, the handler
always ends outside a transaction (committed or rolled back on every exit
path); whenever it answers 500 the body is exactly the opaque
`Internal server error`, the database is unchanged, and one line was
appended to the server-side log; and the `except` clauses map every
non-`IntegrityError` exception to a rollback, a log line, and that opaque
500 with no detail of the exception in the response. -/
theorem generic_failure_handling (data : JSON) (s : Session)
    (hT : s.inTxn = false) :
    (create_product data s).2.inTxn = false ∧
    ((create_product data s).1.status = 500 →
      (create_product data s).1 = ⟨500, .err "Internal server error"⟩ ∧
      (create_product data s).2.db = s.db ∧
      ∃ line, (create_product data s).2.log = s.log ++ [line]) ∧
    (∀ e s1, isIntegrity e = false →
      (handleExc e s1).1 = ⟨500, .err "Internal server error"⟩ ∧
      (handleExc e s1).2 =
        { s1 with inTxn := false,
                  log := s1.log ++ ["Error creating product: " ++ excMsg e] }) := by
  have hmap : ∀ e s1, isIntegrity e = false →
      (handleExc e s1).1 = ⟨500, .err "Internal server error"⟩ ∧
      (handleExc e s1).2 =
        { s1 with inTxn := false,
                  log := s1.log ++ ["Error creating product: " ++ excMsg e] } := by
    intro e s1 he
    cases e with
    | integrityError msg => simp [isIntegrity] at he
    | attributeError msg => exact ⟨rfl, rfl⟩
    | typeError msg => exact ⟨rfl, rfl⟩
    | keyError msg => exact ⟨rfl, rfl⟩
  rcases body_characterize data s with ⟨r, hb, _, h500⟩ | ⟨e, hb⟩ | ⟨e, hb⟩ |
    ⟨nm, sku, d, wid, q, hb⟩
  · rw [create_product_ok data s s r hb]
    exact ⟨hT, fun hc => absurd hc h500, hmap⟩
  · rw [create_product_err data s s e hb]
    obtain ⟨hdb, htx, -, h5⟩ := handleExc_spec e s
    exact ⟨htx, fun hc => ⟨(h5 hc).1, hdb, (h5 hc).2⟩, hmap⟩
  · rw [create_product_err data s { s with inTxn := true } e hb]
    obtain ⟨hdb, htx, -, h5⟩ := handleExc_spec e { s with inTxn := true }
    exact ⟨htx, fun hc => ⟨(h5 hc).1, hdb, (h5 hc).2⟩, hmap⟩
  · rw [create_product_ok data s (commitState s nm sku d wid q) _ hb]
    refine ⟨rfl, fun hc => absurd hc (by simp), hmap⟩

/-- C9 witness: a numeric payload raises a `TypeError` inside the `try`
(`"name" in 7`), which is absorbed into an opaque 500 with rollback and a
log line. -/
theorem generic_failure_handling_witness :
    (create_product (.int 7) sInit).2.inTxn = false ∧
    ((create_product (.int 7) sInit).1.status = 500 →
      (create_product (.int 7) sInit).1 = ⟨500, .err "Internal server error"⟩ ∧
      (create_product (.int 7) sInit).2.db = sInit.db ∧
      ∃ line, (create_product (.int 7) sInit).2.log = sInit.log ++ [line]) ∧
    (∀ e s1, isIntegrity e = false →
      (handleExc e s1).1 = ⟨500, .err "Internal server error"⟩ ∧
      (handleExc e s1).2 =
        { s1 with inTxn := false,
                  log := s1.log ++ ["Error creating product: " ++ excMsg e] }) :=
  generic_failure_handling (.int 7) sInit rfl

/-- A payload that is valid in every field except that its name is the
number 5 rather than a string. -/
def nonStringNamePayload : JSON :=
  .obj [("name", .int 5), ("sku", .str "S1"), ("price", .int 1),
        ("warehouse_id", .int 1), ("initial_quantity", .int 0)]

/-- C2 counterexample: a payload with all five fields non-null, a parseable
non-negative price, a non-negative integer quantity and an existing
warehouse — but a non-string name — is answered 500, not 201, because
`.strip()` raises inside the transaction. -/
theorem success_claim_counterexample :
    (create_product nonStringNamePayload sInit).1 =
      ⟨500, .err "Internal server error"⟩ ∧
    (create_product nonStringNamePayload sInit).1.status ≠ 201 := by
  exact ⟨by decide, by decide⟩

/-- C2 amended: for every payload that passes the falsy test, the
required-field loop, the price parse (non-negative), the integer-quantity
check and the warehouse lookup, and whose name and sku values are strings,
and whose normalized sku does not collide with an existing Product row, the
handler returns 201 with the new product id and the trimmed upper-cased sku,
and commits exactly one Product row (trimmed name, normalized sku, parsed
price) together with one Inventory row carrying the same warehouse id and
the validated quantity. -/
theorem create_product_success (data : JSON) (s : Session) (pv iqv wv nv sv : JSON)
    (d : Dec) (wid : Int) (nm sk : String)
    (h0 : pyFalsy data = false)
    (h1 : checkRequired requiredFields data = .ok none)
    (h2 : pyIndex "price" data = .ok pv)
    (h3 : priceCheck pv = .ok d)
    (h4 : pyIndex "initial_quantity" data = .ok iqv)
    (h5 : isPyInt iqv = true)
    (h6 : 0 ≤ pyIntVal iqv)
    (h7 : pyIndex "warehouse_id" data = .ok wv)
    (h8 : warehouseGet wv s.db.warehouses = some wid)
    (h9 : pyIndex "name" data = .ok nv)
    (h10 : pyStripStr nv = .ok nm)
    (h11 : pyIndex "sku" data = .ok sv)
    (h12 : pyStripStr sv = .ok sk)
    (h13 : s.db.products.any (fun p => p.sku = pyUpper sk) = false) :
    create_product data s =
      (⟨201, .created s.db.nextId (pyUpper sk)⟩,
        commitState s nm (pyUpper sk) d wid (pyIntVal iqv)) := by
  have h6b : decide (pyIntVal iqv < 0) = false := decide_eq_false (not_lt.mpr h6)
  have hb : body data s =
      (.ok ⟨201, .created s.db.nextId (pyUpper sk)⟩,
        commitState s nm (pyUpper sk) d wid (pyIntVal iqv)) := by
    unfold body
    simp only [h0, h1, h2, h3, h4, h5, h6b, h7, h8, h9, h10, h11, h12, h13,
      Bool.not_true, Bool.false_or]
    simp
  exact create_product_ok data s _ _ hb

/-- C2 amended witness: the spec's Widget example against warehouse 1
creates product 1 with sku `ABC-1`, price 999/100, and an inventory row of
quantity 10. -/
theorem create_product_success_witness :
    create_product widgetPayload sInit =
      (⟨201, .created 1 "ABC-1"⟩,
        commitState sInit "Widget" "ABC-1" (.fin (mkRat 999 100)) 1 10) :=
  create_product_success widgetPayload sInit (.str "9.99") (.int 10) (.int 1)
    (.str "Widget") (.str " abc-1 ") (.fin (mkRat 999 100)) 1 "Widget" "abc-1"
    (by decide) rfl rfl (by decide) rfl rfl (by decide) rfl rfl rfl rfl rfl rfl rfl

/-- A payload whose initial_quantity is the boolean `true`. -/
def boolQuantityPayload : JSON :=
  .obj [("name", .str "Widget B"), ("sku", .str "B-1"), ("price", .int 1),
        ("warehouse_id", .int 1), ("initial_quantity", .bool true)]

/-- C4 counterexample: the claim says a boolean initial_quantity is rejected
with 400, but `isinstance(True, int)` holds in Python, so the payload with
`initial_quantity: true` is accepted: 201, and the Inventory row records
quantity 1. -/
theorem quantity_bool_counterexample :
    (create_product boolQuantityPayload sInit).1 = ⟨201, .created 1 "B-1"⟩ ∧
    (create_product boolQuantityPayload sInit).1.status ≠ 400 ∧
    (create_product boolQuantityPayload sInit).2.db.inventories = [⟨1, 1, 1⟩] := by
  exact ⟨by decide, by decide, by decide⟩

/-- C4 amended: for every payload that passes the presence, required-field
and price checks, if initial_quantity is not an int instance or is negative
the handler returns 400 `Initial quantity must be non-negative integer`
without touching the state — but booleans are int instances in Python
(`True` counts as 1, `False` as 0) and pass the check, while floats and
strings (such as 2.5 and "5") and negative ints are rejected. -/
theorem quantity_validation (data : JSON) (s : Session) (pv iqv : JSON) (d : Dec)
    (h0 : pyFalsy data = false)
    (h1 : checkRequired requiredFields data = .ok none)
    (h2 : pyIndex "price" data = .ok pv)
    (h3 : priceCheck pv = .ok d)
    (h4 : pyIndex "initial_quantity" data = .ok iqv)
    (h5 : (!isPyInt iqv || decide (pyIntVal iqv < 0)) = true) :
    create_product data s =
      (⟨400, .err "Initial quantity must be non-negative integer"⟩, s) ∧
    (∀ b, isPyInt (.bool b) = true) ∧
    (∀ q, isPyInt (.num q) = false) ∧
    (∀ t, isPyInt (.str t) = false) := by
  refine ⟨?_, fun b => rfl, fun q => rfl, fun t => rfl⟩
  have hb : body data s =
      (.ok ⟨400, .err "Initial quantity must be non-negative integer"⟩, s) := by
    unfold body
    simp only [h0, h1, h2, h3, h4, h5]
    simp
  exact create_product_ok data s s _ hb

/-- A payload whose initial_quantity is the string `"5"`. -/
def stringQuantityPayload : JSON :=
  .obj [("name", .str "Widget C"), ("sku", .str "C-1"), ("price", .int 1),
        ("warehouse_id", .int 1), ("initial_quantity", .str "5")]

/-- C4 amended witness: the string `"5"` is rejected with 400. -/
theorem quantity_validation_witness :
    (create_product stringQuantityPayload sInit =
      (⟨400, .err "Initial quantity must be non-negative integer"⟩, sInit)) ∧
    (∀ b, isPyInt (.bool b) = true) ∧
    (∀ q, isPyInt (.num q) = false) ∧
    (∀ t, isPyInt (.str t) = false) :=
  quantity_validation stringQuantityPayload sInit (.int 1) (.str "5")
    (.fin (mkRat 1 1)) (by decide) rfl rfl rfl rfl (by decide)

/-- C5: price validation.  For every payload past the presence and
required-field checks, an unparseable price value is answered 400
`Invalid price format`, a parsed NaN (whose comparison raises
`InvalidOperation`) likewise, a parsed negative value 400
`Price cannot be negative`; in all these cases the state is untouched and
the status is 400, never 201. -/
theorem price_validation (data : JSON) (s : Session) (pv : JSON)
    (h0 : pyFalsy data = false)
    (h1 : checkRequired requiredFields data = .ok none)
    (h2 : pyIndex "price" data = .ok pv) :
    (decimalOfJSON pv = .error () →
      create_product data s = (⟨400, .err "Invalid price format"⟩, s)) ∧
    (∀ d, decimalOfJSON pv = .ok d → decLtZero d = .error () →
      create_product data s = (⟨400, .err "Invalid price format"⟩, s)) ∧
    (∀ d, decimalOfJSON pv = .ok d → decLtZero d = .ok true →
      create_product data s = (⟨400, .err "Price cannot be negative"⟩, s)) ∧
    (∀ msg, priceCheck pv = .error msg →
      (create_product data s).1.status = 400 ∧
      (create_product data s).1.status ≠ 201) := by
  have key : ∀ msg, priceCheck pv = .error msg →
      create_product data s = (⟨400, .err msg⟩, s) := by
    intro msg hm
    have hb : body data s = (.ok ⟨400, .err msg⟩, s) := by
      unfold body
      simp only [h0, h1, h2, hm]
      simp
    exact create_product_ok data s s _ hb
  refine ⟨?_, ?_, ?_, ?_⟩
  · intro hp
    exact key _ (by simp [priceCheck, hp])
  · intro d hp hlt
    exact key _ (by simp [priceCheck, hp, hlt])
  · intro d hp hlt
    exact key _ (by simp [priceCheck, hp, hlt])
  · intro msg hm
    rw [key msg hm]
    exact ⟨rfl, by simp⟩

/-- A payload whose price is the unparseable string `"abc"`. -/
def badPricePayload : JSON :=
  .obj [("name", .str "Widget D"), ("sku", .str "D-1"), ("price", .str "abc"),
        ("warehouse_id", .int 1), ("initial_quantity", .int 1)]

/-- C5 witness: the non-numeric price `"abc"` yields 400
`Invalid price format`. -/
theorem price_validation_witness :
    (decimalOfJSON (.str "abc") = .error () →
      create_product badPricePayload sInit =
        (⟨400, .err "Invalid price format"⟩, sInit)) ∧
    (∀ d, decimalOfJSON (.str "abc") = .ok d → decLtZero d = .error () →
      create_product badPricePayload sInit =
        (⟨400, .err "Invalid price format"⟩, sInit)) ∧
    (∀ d, decimalOfJSON (.str "abc") = .ok d → decLtZero d = .ok true →
      create_product badPricePayload sInit =
        (⟨400, .err "Price cannot be negative"⟩, sInit)) ∧
    (∀ msg, priceCheck (.str "abc") = .error msg →
      (create_product badPricePayload sInit).1.status = 400 ∧
      (create_product badPricePayload sInit).1.status ≠ 201) :=
  price_validation badPricePayload sInit (.str "abc") (by decide) rfl rfl

/-- C6: warehouse existence.  For every payload that passes all field
validation, a warehouse_id that does not resolve to an existing Warehouse is
answered 404 `Warehouse not found` with the state — in particular the
Product and Inventory tables — untouched, since the lookup precedes every
write; moreover no run of the handler, on any payload and any state, ever
changes the Warehouse table. -/
theorem warehouse_validation (data : JSON) (s : Session) (pv iqv wv : JSON) (d : Dec)
    (h0 : pyFalsy data = false)
    (h1 : checkRequired requiredFields data = .ok none)
    (h2 : pyIndex "price" data = .ok pv)
    (h3 : priceCheck pv = .ok d)
    (h4 : pyIndex "initial_quantity" data = .ok iqv)
    (h5 : isPyInt iqv = true)
    (h6 : 0 ≤ pyIntVal iqv)
    (h7 : pyIndex "warehouse_id" data = .ok wv)
    (h8 : warehouseGet wv s.db.warehouses = none) :
    create_product data s = (⟨404, .err "Warehouse not found"⟩, s) ∧
    (∀ data1 s1, (create_product data1 s1).2.db.warehouses = s1.db.warehouses) := by
  constructor
  · have h6b : decide (pyIntVal iqv < 0) = false := decide_eq_false (not_lt.mpr h6)
    have hb : body data s = (.ok ⟨404, .err "Warehouse not found"⟩, s) := by
      unfold body
      simp only [h0, h1, h2, h3, h4, h5, h6b, h7, h8, Bool.not_true, Bool.false_or]
      simp
    exact create_product_ok data s s _ hb
  · intro data1 s1
    rcases body_characterize data1 s1 with ⟨r, hb, _, _⟩ | ⟨e, hb⟩ | ⟨e, hb⟩ |
      ⟨nm, sku, d1, wid, q, hb⟩
    · rw [create_product_ok _ _ _ _ hb]
    · rw [create_product_err _ _ _ _ hb]
      obtain ⟨hdb, -, -, -⟩ := handleExc_spec e s1
      rw [hdb]
    · rw [create_product_err _ _ _ _ hb]
      obtain ⟨hdb, -, -, -⟩ := handleExc_spec e { s1 with inTxn := true }
      rw [hdb]
    · rw [create_product_ok _ _ _ _ hb]
      rfl

/-- A payload referencing the non-existent warehouse 99. -/
def missingWarehousePayload : JSON :=
  .obj [("name", .str "Widget E"), ("sku", .str "E-1"), ("price", .int 1),
        ("warehouse_id", .int 99), ("initial_quantity", .int 1)]

/-- C6 witness: warehouse 99 does not exist, so the request is answered 404
and nothing is persisted. -/
theorem warehouse_validation_witness :
    (create_product missingWarehousePayload sInit =
      (⟨404, .err "Warehouse not found"⟩, sInit)) ∧
    (∀ data1 s1, (create_product data1 s1).2.db.warehouses = s1.db.warehouses) :=
  warehouse_validation missingWarehousePayload sInit (.int 1) (.int 1) (.int 99)
    (.fin (mkRat 1 1)) (by decide) rfl rfl rfl rfl rfl (by decide) rfl rfl

/-- C7: missing-field reporting order.  For every mapping payload that
survives the falsy test, if some required field is absent or null the
handler answers 400 naming exactly the first such field in the order name,
sku, price, warehouse_id, initial_quantity, with the state untouched and no
later validation or database access reached. -/
theorem missing_field_order (kvs : List (String × JSON)) (s : Session) (f : String)
    (h0 : pyFalsy (.obj kvs) = false)
    (hf : requiredFields.find? (fun g => absentOrNull g kvs) = some f) :
    create_product (.obj kvs) s =
      (⟨400, .err ("Missing required field: " ++ f)⟩, s) := by
  have h1 : checkRequired requiredFields (.obj kvs) = .ok (some f) := by
    rw [checkRequired_obj, hf]
  have hb : body (.obj kvs) s =
      (.ok ⟨400, .err ("Missing required field: " ++ f)⟩, s) := by
    unfold body
    simp only [h0, h1]
    simp
  exact create_product_ok _ _ _ _ hb

/-- C7 witness: a payload missing both sku and warehouse_id is reported for
sku, the earlier of the two in the listed order. -/
theorem missing_field_order_witness :
    create_product (.obj [("name", .str "x"), ("price", .int 1)]) sInit =
      (⟨400, .err "Missing required field: sku"⟩, sInit) :=
  missing_field_order [("name", .str "x"), ("price", .int 1)] sInit "sku"
    (by decide) (by decide)

/-- C10: a payload that passes all five validation steps but whose name or
sku is not a string is answered 500 `Internal server error` — never a 400
validation error — because `.strip()` raises `AttributeError` inside the
transaction block and the generic handler catches it, rolls back (leaving
the database untouched, so the non-string value is never persisted) and
logs the error. -/
theorem nonstring_name_sku_500 (data : JSON) (s : Session) (pv iqv wv nv : JSON)
    (d : Dec) (wid : Int)
    (h0 : pyFalsy data = false)
    (h1 : checkRequired requiredFields data = .ok none)
    (h2 : pyIndex "price" data = .ok pv)
    (h3 : priceCheck pv = .ok d)
    (h4 : pyIndex "initial_quantity" data = .ok iqv)
    (h5 : isPyInt iqv = true)
    (h6 : 0 ≤ pyIntVal iqv)
    (h7 : pyIndex "warehouse_id" data = .ok wv)
    (h8 : warehouseGet wv s.db.warehouses = some wid)
    (h9 : pyIndex "name" data = .ok nv) :
    (∀ m, pyStripStr nv = .error (.attributeError m) →
      create_product data s =
        (⟨500, .err "Internal server error"⟩,
          { s with inTxn := false,
                   log := s.log ++ ["Error creating product: " ++ m] })) ∧
    (∀ nm sv m, pyStripStr nv = .ok nm → pyIndex "sku" data = .ok sv →
      pyStripStr sv = .error (.attributeError m) →
      create_product data s =
        (⟨500, .err "Internal server error"⟩,
          { s with inTxn := false,
                   log := s.log ++ ["Error creating product: " ++ m] })) := by
  have h6b : decide (pyIntVal iqv < 0) = false := decide_eq_false (not_lt.mpr h6)
  constructor
  · intro m hstrip
    have hb : body data s = (.error (.attributeError m), { s with inTxn := true }) := by
      unfold body
      simp only [h0, h1, h2, h3, h4, h5, h6b, h7, h8, h9, hstrip,
        Bool.not_true, Bool.false_or]
      simp
    rw [create_product_err _ _ _ _ hb]
    rfl
  · intro nm sv m hnm hsv hstrip
    have hb : body data s = (.error (.attributeError m), { s with inTxn := true }) := by
      unfold body
      simp only [h0, h1, h2, h3, h4, h5, h6b, h7, h8, h9, hnm, hsv, hstrip,
        Bool.not_true, Bool.false_or]
      simp
    rw [create_product_err _ _ _ _ hb]
    rfl

/-- C10 witness: the numeric name 5 reaches the transaction and is turned
into an opaque 500 with rollback and a log line. -/
theorem nonstring_name_sku_500_witness :
    create_product nonStringNamePayload sInit =
      (⟨500, .err "Internal server error"⟩,
        { sInit with
            inTxn := false,
            log := sInit.log ++ ["Error creating product: object has no attribute strip"] }) :=
  (nonstring_name_sku_500 nonStringNamePayload sInit (.int 1) (.int 0) (.int 1)
    (.int 5) (.fin (mkRat 1 1)) 1 (by decide) rfl rfl rfl rfl rfl (by decide)
    rfl rfl rfl).1 "object has no attribute strip" rfl

end ProductAPI
